import Mathlib

/-!
Shallow embedding of the agent supervisor and pipeline lifecycle core of
src/agent/src/trident.rs.  Pure functions of the source are translated to
Lean functions; stateful code is modelled by explicit state passing plus
effect traces (a list of the externally visible calls, in program order).
Types owned by crates outside src/ (YamlConfig, MacAddr, trident::TapType,
IP addresses, interface links) enter trident.rs only through equality
tests and pass-through, so they are modelled as Nat tokens.
-/

/-- Modelled from the spec: NORMAL_EXIT_WITH_RESTART is the externally
defined non-zero restart exit code (crate `common` module, absent from
src/); only its identity matters to the supervisor. -/
def NORMAL_EXIT_WITH_RESTART : Nat := 3

/-- Constant COMMON_DELAY of trident.rs: `const COMMON_DELAY: u32 = 5;`. -/
def COMMON_DELAY : Nat := 5

/-- Token for config::YamlConfig snapshots (only compared for equality). -/
abbrev YamlConfig := Nat

/-- Token for proto::trident::TapType values (only compared for equality). -/
abbrev TapTypeV := Nat

/-- Token for an IP address (its textual form only compared for equality). -/
abbrev Ip := Nat

/-- Token for a MAC address. -/
abbrev MacAddr := Nat

/-- Token for a network interface link returned by the regex resolvers. -/
abbrev Link := Nat

/-- Token for proto::trident::TridentType. -/
abbrev TridentType := Nat

/-- proto::trident::TapMode as matched in trident.rs. -/
inductive TapMode
  | Local
  | Mirror
  | Analyzer
  | Decap
deriving DecidableEq

/-- proto::trident::IfMacSource as used by the listener callbacks. -/
inductive IfMacSource
  | IfMac
  | IfName
  | IfLibvirtXml
deriving DecidableEq

/-- public::netns::NsFile: the root namespace or a named non-root one. -/
inductive NsFile
  | Root
  | Named (file : String)
deriving DecidableEq

/-- RunningMode of trident.rs. -/
inductive RunningMode
  | Managed
  | Standalone
deriving DecidableEq

/-! ## parse_tap_type (trident.rs lines 582..599) -/

/-- The diff computed by `parse_tap_type`: `updated` is set when the lengths
differ, otherwise by an elementwise scan of the two lists. -/
def tapTypesDiffer (cur_tap_types tap_types : List TapTypeV) : Bool :=
  if cur_tap_types.length ≠ tap_types.length then
    true
  else
    (List.range tap_types.length).any
      (fun i => cur_tap_types.getD i 0 ≠ tap_types.getD i 0)

/-- Result of `parse_tap_type`: the cache field `cur_tap_types` afterwards,
and the list of `TapTyper::on_tap_types_change` notifications made. -/
structure ParseTapTypeResult where
  cur_tap_types : List TapTypeV
  notifications : List (List TapTypeV)
deriving DecidableEq

/-- `parse_tap_type(components, tap_types)`: when the diff fires it notifies
the TapTyper once with the new list, clears the cache and clones the new
list into it; otherwise it touches nothing. -/
def parse_tap_type (cur_tap_types tap_types : List TapTypeV) : ParseTapTypeResult :=
  if tapTypesDiffer cur_tap_types tap_types then
    { cur_tap_types := tap_types, notifications := [tap_types] }
  else
    { cur_tap_types := cur_tap_types, notifications := [] }

/-! ## DomainNameListener::run (trident.rs lines 657..719)

One wakeup of the watcher thread.  `resolve i` is the outcome of
`lookup_host(domain_names[i])`: `none` for `Err` (skipped), `some current`
for `Ok(current)`.  The source overwrites `changed` on every successful
resolution (`changed = current.iter().find(..).is_none();`), and on a
change assigns `ips[i] = current[0].to_string()`.  `current[0]` is modelled
with `headD` (the source would panic on an empty `Ok` list, which
`lookup_host` does not produce). -/

/-- Calls made at the end of a wakeup when the final `changed` flag is set. -/
inductive DnsEffect
  | resetSession (ips : List Ip) (ctrl_ip : Ip) (ctrl_mac : MacAddr)
  | setRemotes (ips : List Ip)
  | setLogRemotes (ips : List Ip)
deriving DecidableEq

/-- Body of the `for i in 0..domain_names.len()` loop for one position. -/
def dnsStep (resolve : Nat → Option (List Ip)) (acc : List Ip × Bool) (i : Nat) :
    List Ip × Bool :=
  match resolve i with
  | none => acc
  | some current =>
      let changed := (current.find? (fun x => x = acc.1.getD i 0)).isNone
      if changed then (acc.1.set i (current.headD 0), changed) else (acc.1, changed)

/-- The whole resolution loop of one wakeup: final `ips` and final `changed`. -/
def dnsScan (n : Nat) (resolve : Nat → Option (List Ip)) (ips : List Ip) :
    List Ip × Bool :=
  (List.range n).foldl (dnsStep resolve) (ips, false)

/-- Whether position `i` is deemed changed by the loop: its fresh resolution
succeeded and the resolved set does not contain `ips[i]`. -/
def deemedChanged (resolve : Nat → Option (List Ip)) (ips : List Ip) (i : Nat) : Bool :=
  match resolve i with
  | none => false
  | some current => (current.find? (fun x => x = ips.getD i 0)).isNone

/-- One wakeup of the watcher: run the loop, then, when the final `changed`
flag is set, reset the session, update the stats remotes and the remote-log
remotes, with ctrl ip/mac recomputed by the external `get_ctrl_ip_and_mac`
(passed in as `get_ctrl`) from `ips[0]`. -/
def domainIteration (n : Nat) (resolve : Nat → Option (List Ip)) (ips : List Ip)
    (get_ctrl : Ip → Ip × MacAddr) : List Ip × List DnsEffect :=
  let r := dnsScan n resolve ips
  if r.2 then
    let c := get_ctrl (r.1.headD 0)
    (r.1, [DnsEffect.resetSession r.1 c.1 c.2, DnsEffect.setRemotes r.1,
           DnsEffect.setLogRemotes r.1])
  else
    (r.1, [])

/-- Resolver of the C2 failing input: domain 0 now resolves to [10] (its
current ip is 1), domain 1 still resolves to [2] (unchanged). -/
def c2resolve : Nat → Option (List Ip) :=
  fun i => if i = 0 then some [10] else some [2]

/-- A concrete stand-in for the external get_ctrl_ip_and_mac. -/
def c2ctrl : Ip → Ip × MacAddr := fun ip => (ip, ip)

/-! ## dispatcher_listener_callback (trident.rs lines 489..580) -/

/-- The per-dispatcher listener, reduced to what the callback inspects: the
network namespace it owns (`listener.netns()`). -/
structure ListenerM where
  netns : NsFile
deriving DecidableEq

/-- Externally visible calls of dispatcher_listener_callback, tagged with
the listener's position in `components.dispatcher_listeners`. -/
inductive CallbackEffect
  | warnRegexFailed (root_ns : Bool)
  | warnNoMatch (root_ns : Bool)
  | tapInterfaceChange (idx : Nat) (links : List Link) (src : IfMacSource)
      (trident_type : TridentType) (blacklist : List Nat)
  | vmChange (idx : Nat) (macs : List MacAddr)
  | tapTyperNotified (tap_types : List TapTypeV)
deriving DecidableEq

/-- The fields of handler::DispatcherConfig read by the callback. -/
structure DispatcherConfM where
  tap_mode : TapMode
  if_mac_source : IfMacSource
  trident_type : TridentType
deriving DecidableEq

/-- Interface list a regex resolution yields: `none` models `Err` (the
source logs and substitutes `vec![]`), `some l` models `Ok(l)`. -/
def resolvedLinks (res : Option (List Link)) : List Link := res.getD []

/-- Warnings logged for a resolution outcome: errors and empty matches are
logged, never fatal. -/
def resolveWarnings (root_ns : Bool) (res : Option (List Link)) : List CallbackEffect :=
  match res with
  | none => [CallbackEffect.warnRegexFailed root_ns]
  | some l => if l = [] then [CallbackEffect.warnNoMatch root_ns] else []

/-- Loop body for one listener in Local mode.  A listener owning a non-root
namespace gets the namespace-resolved interfaces pushed and the loop then
`continue`s: the vm-MAC push below is skipped for it.  A root-namespace
listener gets the root list pushed and then the vm MACs. -/
def localListenerBlock (conf : DispatcherConfM) (rootLinks : List Link)
    (nsRes : NsFile → Option (List Link)) (blacklist : List Nat)
    (vm_mac_addrs : List MacAddr) (i : Nat) (l : ListenerM) : List CallbackEffect :=
  if l.netns ≠ NsFile.Root then
    resolveWarnings false (nsRes l.netns) ++
      [CallbackEffect.tapInterfaceChange i (resolvedLinks (nsRes l.netns))
        conf.if_mac_source conf.trident_type blacklist]
  else
    [CallbackEffect.tapInterfaceChange i rootLinks conf.if_mac_source
       conf.trident_type blacklist,
     CallbackEffect.vmChange i vm_mac_addrs]

/-- dispatcher_listener_callback: effect trace and the updated
`cur_tap_types` cache.  `rootRes` is the root-namespace regex resolution,
`nsRes` the per-namespace one (Linux build). -/
def dispatcher_listener_callback (conf : DispatcherConfM) (cur_tap_types : List TapTypeV)
    (rootRes : Option (List Link)) (nsRes : NsFile → Option (List Link))
    (listeners : List ListenerM) (blacklist : List Nat) (vm_mac_addrs : List MacAddr)
    (tap_types : List TapTypeV) : List CallbackEffect × List TapTypeV :=
  match conf.tap_mode with
  | TapMode.Local =>
      (resolveWarnings true rootRes ++
        (List.range listeners.length).flatMap (fun i =>
          localListenerBlock conf (resolvedLinks rootRes) nsRes blacklist vm_mac_addrs
            i (listeners.getD i { netns := NsFile.Root })),
       cur_tap_types)
  | TapMode.Mirror =>
      ((List.range listeners.length).flatMap (fun i =>
        [CallbackEffect.tapInterfaceChange i [] IfMacSource.IfMac conf.trident_type blacklist,
         CallbackEffect.vmChange i vm_mac_addrs]),
       cur_tap_types)
  | TapMode.Analyzer =>
      ((List.range listeners.length).flatMap (fun i =>
        [CallbackEffect.tapInterfaceChange i [] IfMacSource.IfMac conf.trident_type blacklist,
         CallbackEffect.vmChange i vm_mac_addrs]) ++
        (parse_tap_type cur_tap_types tap_types).notifications.map
          CallbackEffect.tapTyperNotified,
       (parse_tap_type cur_tap_types tap_types).cur_tap_types)
  | TapMode.Decap => ([], cur_tap_types)

/-- Config of the C3 counterexample: Local mode. -/
def c3conf : DispatcherConfM :=
  { tap_mode := TapMode.Local, if_mac_source := IfMacSource.IfMac, trident_type := 0 }

/-- Namespace resolver of the C3 counterexample: every namespace resolves
to the single link 5. -/
def c3nsRes : NsFile → Option (List Link) := fun _ => some [5]

/-! ## Components::new sender-queue construction (trident.rs lines 1005..1495)

The trunk sender queues, in allocation order, each with the countable
registration made right after `queue::bounded_with_debug` and before the
`UniformSenderThread::new` for that queue.  The index tag is a decimal
string in the source; it is kept as the Nat it renders. -/

/-- The trunk sender queues of Components::new, by their queue-name string:
l4_flow_aggr = "3-flow-to-collector-sender", metrics =
"2-doc-to-collector-sender", proto_log = "3-protolog-to-collector-sender",
packet_sequence = "packet_sequence_block-to-sender", otel =
"otel-to-sender", prometheus = "prometheus-to-sender", telegraf =
"telegraf-to-sender", compressed_otel = "compressed-otel-to-sender". -/
inductive QName
  | l4_flow_aggr
  | metrics
  | proto_log
  | packet_sequence
  | otel
  | prometheus
  | telegraf
  | compressed_otel
deriving DecidableEq

/-- Events of Components::new concerning the trunk sender queues. -/
inductive NewEvent
  | allocQueue (q : QName)
  | registerQueueCountable (q : QName) (index : Nat)
  | constructSender (sender_id : Nat) (q : QName)
deriving DecidableEq

/-- The sender id the source pairs with each queue (`let sender_id = ...`).
The packet-sequence sender and the compressed-otel sender both get id 6. -/
def senderIdOf : QName → Nat
  | QName.l4_flow_aggr => 0
  | QName.metrics => 1
  | QName.proto_log => 2
  | QName.packet_sequence => 6
  | QName.otel => 3
  | QName.prometheus => 4
  | QName.telegraf => 5
  | QName.compressed_otel => 6

/-- The trunk-sender events of Components::new in program order.  Note the
proto-log registration: the source passes the literal string "0" as the
index tag (line 1065) although that queue's sender id is 2; every other
queue registers `sender_id.to_string()`. -/
def componentsNewSenderTrace : List NewEvent :=
  [NewEvent.allocQueue QName.l4_flow_aggr,
   NewEvent.registerQueueCountable QName.l4_flow_aggr 0,
   NewEvent.constructSender 0 QName.l4_flow_aggr,
   NewEvent.allocQueue QName.metrics,
   NewEvent.registerQueueCountable QName.metrics 1,
   NewEvent.constructSender 1 QName.metrics,
   NewEvent.allocQueue QName.proto_log,
   NewEvent.registerQueueCountable QName.proto_log 0,
   NewEvent.constructSender 2 QName.proto_log,
   NewEvent.allocQueue QName.packet_sequence,
   NewEvent.registerQueueCountable QName.packet_sequence 6,
   NewEvent.constructSender 6 QName.packet_sequence,
   NewEvent.allocQueue QName.otel,
   NewEvent.registerQueueCountable QName.otel 3,
   NewEvent.constructSender 3 QName.otel,
   NewEvent.allocQueue QName.prometheus,
   NewEvent.registerQueueCountable QName.prometheus 4,
   NewEvent.constructSender 4 QName.prometheus,
   NewEvent.allocQueue QName.telegraf,
   NewEvent.registerQueueCountable QName.telegraf 5,
   NewEvent.constructSender 5 QName.telegraf,
   NewEvent.allocQueue QName.compressed_otel,
   NewEvent.registerQueueCountable QName.compressed_otel 6,
   NewEvent.constructSender 6 QName.compressed_otel]

/-- The index tag under which queue `q` is registered with the stats
registry, read off the trace. -/
def registeredIndex (q : QName) : Option Nat :=
  componentsNewSenderTrace.findSome? (fun e =>
    match e with
    | NewEvent.registerQueueCountable q2 idx => if q2 = q then some idx else none
    | _ => none)

/-- Position of queue `q`'s countable registration in the trace. -/
def regPos (q : QName) : Option Nat :=
  componentsNewSenderTrace.findIdx? (fun e =>
    match e with
    | NewEvent.registerQueueCountable q2 _ => q2 = q
    | _ => false)

/-- Position of queue `q`'s UniformSenderThread construction in the trace. -/
def constructPos (q : QName) : Option Nat :=
  componentsNewSenderTrace.findIdx? (fun e =>
    match e with
    | NewEvent.constructSender _ q2 => q2 = q
    | _ => false)

/-- Whether queue `q`'s registration precedes its sender construction. -/
def regBeforeConstruct (q : QName) : Bool :=
  match regPos q, constructPos q with
  | some i, some j => i < j
  | _, _ => false

/-- All trunk sender queues. -/
def allQNames : List QName :=
  [QName.l4_flow_aggr, QName.metrics, QName.proto_log, QName.packet_sequence,
   QName.otel, QName.prometheus, QName.telegraf, QName.compressed_otel]

/-- The trunk sender queues other than proto-log. -/
def allQNamesButProtoLog : List QName :=
  [QName.l4_flow_aggr, QName.metrics, QName.packet_sequence,
   QName.otel, QName.prometheus, QName.telegraf, QName.compressed_otel]

/-! ## Collector pipeline delays (trident.rs lines 1553..1690) -/

/-- The yaml-config fields feeding the tolerable-delay formulas, all in
whole seconds (`Duration::as_secs`). -/
structure DelayCfg where
  packet_delay : Nat
  flow_flush_interval : Nat
  second_flow_extra_delay : Nat
deriving DecidableEq

/-- `second_quadruple_tolerable_delay` as computed in new_collector. -/
def second_quadruple_tolerable_delay (y : DelayCfg) : Nat :=
  (y.packet_delay + 1 + y.flow_flush_interval + COMMON_DELAY) + y.second_flow_extra_delay

/-- `minute_quadruple_tolerable_delay` as computed in new_collector. -/
def minute_quadruple_tolerable_delay (y : DelayCfg) : Nat :=
  (60 + y.packet_delay) + 1 + y.flow_flush_interval + COMMON_DELAY

/-- 2^32: the tolerable delays are u64 in the source and are cast `as u32`
when passed to Collector::new. -/
def U32_MOD : Nat := 2 ^ 32

/-- The window handed to Collector::new: `delay as u32 + COMMON_DELAY`,
with u32 (wrapping) arithmetic made explicit. -/
def collectorWindow (delay : Nat) : Nat := (delay % U32_MOD + COMMON_DELAY) % U32_MOD

/-- What new_collector instantiates: the windows of the second and minute
Collector, `none` when the corresponding MetricsType level is absent. -/
structure CollectorThreadM where
  second_window : Option Nat
  minute_window : Option Nat
deriving DecidableEq

/-- Components::new_collector, restricted to the per-level Collector
windows: each instantiated Collector gets its tolerable delay plus an
extra COMMON_DELAY. -/
def new_collector (metrics_second metrics_minute : Bool) (y : DelayCfg) :
    CollectorThreadM :=
  { second_window :=
      if metrics_second then
        some (collectorWindow (second_quadruple_tolerable_delay y))
      else none,
    minute_window :=
      if metrics_minute then
        some (collectorWindow (minute_quadruple_tolerable_delay y))
      else none }

/-! ## Components::start / Components::stop (trident.rs lines 765..837, 1692..1747) -/

/-- Names of the components started and stopped by the pipeline instance. -/
inductive CompName
  | libvirt_xml_extractor
  | pcap_manager
  | platform_synchronizer
  | api_watcher
  | kubernetes_poller
  | debugger
  | metrics_uniform_sender
  | l7_flow_uniform_sender
  | l4_flow_uniform_sender
  | packet_sequence_uniform_sender
  | packet_sequence_parsers
  | dispatcher
  | log_parsers
  | collector
  | ebpf_collector
  | otel_uniform_sender
  | compressed_otel_uniform_sender
  | prometheus_uniform_sender
  | telegraf_uniform_sender
  | metric_server
  | domain_name_listener
  | handler_builder
  | cgroups_controller
deriving DecidableEq

/-- Calls Components::start / Components::stop make on their components. -/
inductive CompEffect
  | started (c : CompName)
  | startedIdx (c : CompName) (i : Nat)
  | freeMemoryChecked
  | warnedFreeMemory
  | stoppedComp (c : CompName)
  | stoppedIdx (c : CompName) (i : Nat)
deriving DecidableEq

/-- The fields of Components that determine which start/stop calls happen. -/
structure StartEnv where
  agent_mode : RunningMode
  tap_mode : TapMode
  kubernetes_cluster_id_empty : Bool
  free_memory_ok : Bool
  metric_server_enabled : Bool
  ebpf_present : Bool
  dispatcher_count : Nat
  log_parsers_count : Nat
  collector_count : Nat
  packet_sequence_parsers_count : Nat
  handler_builder_count : Nat
deriving DecidableEq

/-- The calls of Components::start after the running CAS, in program order
(Linux build).  The free-memory check gates the dispatcher starts exactly
when `tap_mode != Analyzer && kubernetes_cluster_id.is_empty()`; on failure
the error is only logged (warn) and start continues. -/
def startEffects (env : StartEnv) : List CompEffect :=
  [CompEffect.started CompName.libvirt_xml_extractor,
   CompEffect.started CompName.pcap_manager] ++
  (if env.agent_mode = RunningMode.Managed then
     [CompEffect.started CompName.platform_synchronizer,
      CompEffect.started CompName.api_watcher]
   else []) ++
  [CompEffect.started CompName.kubernetes_poller,
   CompEffect.started CompName.debugger,
   CompEffect.started CompName.metrics_uniform_sender,
   CompEffect.started CompName.l7_flow_uniform_sender,
   CompEffect.started CompName.l4_flow_uniform_sender,
   CompEffect.started CompName.packet_sequence_uniform_sender] ++
  (List.range env.packet_sequence_parsers_count).map
    (CompEffect.startedIdx CompName.packet_sequence_parsers) ++
  (if env.tap_mode ≠ TapMode.Analyzer ∧ env.kubernetes_cluster_id_empty = true then
     CompEffect.freeMemoryChecked ::
       (if env.free_memory_ok then
          (List.range env.dispatcher_count).map (CompEffect.startedIdx CompName.dispatcher)
        else [CompEffect.warnedFreeMemory])
   else
     (List.range env.dispatcher_count).map (CompEffect.startedIdx CompName.dispatcher)) ++
  (List.range env.log_parsers_count).map (CompEffect.startedIdx CompName.log_parsers) ++
  (List.range env.collector_count).map (CompEffect.startedIdx CompName.collector) ++
  (if env.ebpf_present then [CompEffect.started CompName.ebpf_collector] else []) ++
  (if env.agent_mode = RunningMode.Managed then
     [CompEffect.started CompName.otel_uniform_sender,
      CompEffect.started CompName.compressed_otel_uniform_sender,
      CompEffect.started CompName.prometheus_uniform_sender,
      CompEffect.started CompName.telegraf_uniform_sender] ++
     (if env.metric_server_enabled then [CompEffect.started CompName.metric_server] else [])
   else []) ++
  [CompEffect.started CompName.domain_name_listener] ++
  (List.range env.handler_builder_count).map (CompEffect.startedIdx CompName.handler_builder)

/-- The calls of Components::stop after the running CAS, in program order
(Linux build). -/
def stopEffects (env : StartEnv) : List CompEffect :=
  (List.range env.dispatcher_count).map (CompEffect.stoppedIdx CompName.dispatcher) ++
  [CompEffect.stoppedComp CompName.platform_synchronizer,
   CompEffect.stoppedComp CompName.api_watcher] ++
  (List.range env.collector_count).map (CompEffect.stoppedIdx CompName.collector) ++
  (List.range env.log_parsers_count).map (CompEffect.stoppedIdx CompName.log_parsers) ++
  [CompEffect.stoppedComp CompName.l4_flow_uniform_sender,
   CompEffect.stoppedComp CompName.metrics_uniform_sender,
   CompEffect.stoppedComp CompName.l7_flow_uniform_sender,
   CompEffect.stoppedComp CompName.libvirt_xml_extractor,
   CompEffect.stoppedComp CompName.debugger] ++
  (if env.ebpf_present then [CompEffect.stoppedComp CompName.ebpf_collector] else []) ++
  [CompEffect.stoppedComp CompName.cgroups_controller,
   CompEffect.stoppedComp CompName.metric_server,
   CompEffect.stoppedComp CompName.otel_uniform_sender,
   CompEffect.stoppedComp CompName.compressed_otel_uniform_sender,
   CompEffect.stoppedComp CompName.prometheus_uniform_sender,
   CompEffect.stoppedComp CompName.telegraf_uniform_sender,
   CompEffect.stoppedComp CompName.packet_sequence_uniform_sender,
   CompEffect.stoppedComp CompName.domain_name_listener] ++
  (List.range env.handler_builder_count).map (CompEffect.stoppedIdx CompName.handler_builder) ++
  [CompEffect.stoppedComp CompName.pcap_manager]

/-- The pipeline instance as the lifecycle functions see it: the running
flag plus the configuration fields the start/stop paths read. -/
structure Components where
  running : Bool
  env : StartEnv
deriving DecidableEq

/-- Components::start: `if self.running.swap(true, ..) { return; }` then
the start calls. -/
def Components.start (c : Components) : Components × List CompEffect :=
  if c.running then (c, [])
  else ({ c with running := true }, startEffects c.env)

/-- Components::stop: `if !self.running.swap(false, ..) { return; }` then
the stop calls. -/
def Components.stop (c : Components) : Components × List CompEffect :=
  if c.running then ({ c with running := false }, stopEffects c.env)
  else (c, [])

/-! ## The supervisor loop body for a ConfigChanged state
(Trident::run, trident.rs lines 381..473) -/

/-- The candidate module config (handler::ModuleConfig) as the supervisor
step reads it: its dispatcher tap_mode plus an identity token for the rest. -/
structure ModuleCfg where
  tap_mode : TapMode
  token : Nat
deriving DecidableEq

/-- The runtime config carried by ConfigChanged: the yaml_config snapshot
compared against the stored one, and the module config it induces. -/
structure RuntimeCfg where
  yaml_config : YamlConfig
  module : ModuleCfg
deriving DecidableEq

/-- ChangedConfig of trident.rs. -/
structure ChangedConfigM where
  runtime_config : RuntimeCfg
  blacklist : List Nat
  vm_mac_addrs : List MacAddr
  kubernetes_cluster_id : Option String
  tap_types : List TapTypeV
deriving DecidableEq

/-- The supervisor's view of the pipeline instance: the running flag, the
candidate module config stored in it, and the tap-type cache. -/
structure CompsView where
  running : Bool
  config : ModuleCfg
  cur_tap_types : List TapTypeV
deriving DecidableEq

/-- The supervisor loop's local state across ConfigChanged events. -/
structure SupState where
  yaml_conf : Option YamlConfig
  components : Option CompsView
  static_kubernetes_cluster_id : String
deriving DecidableEq

/-- Externally visible steps of one ConfigChanged handling. -/
inductive SupEffect
  | stopComponents
  | warnRestart
  | sleepSecs (n : Nat)
  | exitProcess (code : Nat)
  | buildComponents
  | startComponents
  | parseTapTypeOnNew
  | runCallbacks
  | fanoutDispatcherListeners
  | pushDispatcherConfigToListeners
deriving DecidableEq

/-- Tap-type cache update applied through parse_tap_type when the capture
mode is Analyzer (by dispatcher_listener_callback on the hot path, directly
after the first build). -/
def applyHotTapTypes (c : CompsView) (tap_mode : TapMode) (tap_types : List TapTypeV) :
    CompsView :=
  if tap_mode = TapMode.Analyzer then
    { c with cur_tap_types := (parse_tap_type c.cur_tap_types tap_types).cur_tap_types }
  else c

/-- The common path once the yaml snapshot matched (or none was stored):
stash the yaml, adopt a delivered kubernetes_cluster_id, then either build,
start and configure a fresh pipeline (none yet) or update the existing one
in place.  Components::new is modelled as succeeding (on Err the thread
returns and the process exits 1, outside these claims). -/
def processCommon (st : SupState) (cc : ChangedConfigM) : SupState × List SupEffect :=
  let k8s :=
    match cc.kubernetes_cluster_id with
    | some id => id
    | none => st.static_kubernetes_cluster_id
  match st.components with
  | none =>
      let comp1 : CompsView :=
        { running := true, config := cc.runtime_config.module, cur_tap_types := [] }
      let comp2 := applyHotTapTypes comp1 cc.runtime_config.module.tap_mode cc.tap_types
      ({ yaml_conf := some cc.runtime_config.yaml_config, components := some comp2,
         static_kubernetes_cluster_id := k8s },
       [SupEffect.buildComponents, SupEffect.startComponents] ++
         (if cc.runtime_config.module.tap_mode = TapMode.Analyzer then
            [SupEffect.parseTapTypeOnNew]
          else []) ++
         [SupEffect.runCallbacks])
  | some c =>
      let c1 := { c with running := true, config := cc.runtime_config.module }
      let c2 := applyHotTapTypes c1 cc.runtime_config.module.tap_mode cc.tap_types
      ({ yaml_conf := some cc.runtime_config.yaml_config, components := some c2,
         static_kubernetes_cluster_id := k8s },
       [SupEffect.startComponents, SupEffect.fanoutDispatcherListeners,
        SupEffect.runCallbacks, SupEffect.pushDispatcherConfigToListeners])

/-- Handling of one consumed ConfigChanged state: when a yaml snapshot is
stored and differs from the new one, stop the pipeline if present, log the
restart warning, sleep one second and exit with the restart code; otherwise
take the common path. -/
def processConfigChanged (st : SupState) (cc : ChangedConfigM) : SupState × List SupEffect :=
  match st.yaml_conf with
  | some old_yaml =>
      if old_yaml ≠ cc.runtime_config.yaml_config then
        ({ st with components := none },
         (if st.components.isSome then [SupEffect.stopComponents] else []) ++
           [SupEffect.warnRestart, SupEffect.sleepSecs 1,
            SupEffect.exitProcess NORMAL_EXIT_WITH_RESTART])
      else processCommon st cc
  | none => processCommon st cc

/-- Total wall-clock sleeping the supervisor thread performs in a trace. -/
def sleepTotal (effs : List SupEffect) : Nat :=
  (effs.map (fun e =>
    match e with
    | SupEffect.sleepSecs n => n
    | _ => 0)).sum

/-! ## Trident::stop (trident.rs lines 476..486) -/

/-- The Trident handle returned by Trident::start: the shared state cell
(reduced to whether Terminated was published) and whether the supervisor
join handle is still present. -/
structure Trident where
  terminated : Bool
  handle_present : Bool
deriving DecidableEq

/-- Steps of Trident::stop. -/
inductive StopEffect
  | setStateTerminated
  | notifyCondvar
  | joinSupervisor
deriving DecidableEq

/-- Trident::stop: publish Terminated, notify the condvar, then
`self.handle.take().unwrap().join().unwrap()`.  When the handle was already
taken, `unwrap()` on None panics: modelled as a `none` result, after the
state write and the notify already happened. -/
def Trident.stopM (t : Trident) : List StopEffect × Option Trident :=
  if t.handle_present then
    ([StopEffect.setStateTerminated, StopEffect.notifyCondvar, StopEffect.joinSupervisor],
     some { terminated := true, handle_present := false })
  else
    ([StopEffect.setStateTerminated, StopEffect.notifyCondvar], none)

/-- The Trident value Trident::start returns: supervisor spawned, handle
present. -/
def Trident.startResult : Trident := { terminated := false, handle_present := true }

/-- C1 witness input: a stored yaml snapshot 1 and a running pipeline. -/
def c1state : SupState :=
  { yaml_conf := some 1,
    components := some
      { running := true, config := { tap_mode := TapMode.Local, token := 0 },
        cur_tap_types := [] },
    static_kubernetes_cluster_id := "" }

/-- C1 witness input: a ConfigChanged whose yaml snapshot is 2. -/
def c1cc : ChangedConfigM :=
  { runtime_config := { yaml_config := 2, module := { tap_mode := TapMode.Local, token := 0 } },
    blacklist := [], vm_mac_addrs := [], kubernetes_cluster_id := none, tap_types := [] }

/-- C7 witness input: the existing pipeline instance. -/
def c7comp : CompsView :=
  { running := false, config := { tap_mode := TapMode.Local, token := 5 },
    cur_tap_types := [] }

/-- C7 witness input: supervisor state with yaml snapshot 4 stored. -/
def c7state : SupState :=
  { yaml_conf := some 4, components := some c7comp, static_kubernetes_cluster_id := "" }

/-- C7 witness input: a ConfigChanged with the same yaml snapshot 4. -/
def c7cc : ChangedConfigM :=
  { runtime_config := { yaml_config := 4, module := { tap_mode := TapMode.Local, token := 6 } },
    blacklist := [], vm_mac_addrs := [], kubernetes_cluster_id := none, tap_types := [] }

/-- C3 witness input: Local-mode dispatcher config. -/
def c3wconf : DispatcherConfM :=
  { tap_mode := TapMode.Local, if_mac_source := IfMacSource.IfName, trident_type := 1 }

/-- C3 witness input: a root-namespace listener and a non-root one. -/
def c3wlisteners : List ListenerM :=
  [{ netns := NsFile.Root }, { netns := NsFile.Named "ns2" }]

/-- C3 witness input: every namespace resolution fails. -/
def c3wnsRes : NsFile → Option (List Link) := fun _ => none

/-! # Theorems -/

/-- Helper: membership in an if-then-else of lists. -/
theorem mem_ite_list {α : Type} {c : Prop} [Decidable c] (a : α) (l1 l2 : List α) :
    (a ∈ if c then l1 else l2) ↔ (c ∧ a ∈ l1) ∨ (¬c ∧ a ∈ l2) := by
  split <;> simp [*]

/-- Helper: two lists of equal length agreeing at every getD position are
equal. -/
theorem list_eq_of_getD (cur tap : List TapTypeV) (hl : cur.length = tap.length)
    (h : ∀ i, i < tap.length → cur.getD i 0 = tap.getD i 0) : cur = tap := by
  induction cur generalizing tap with
  | nil => cases tap with
    | nil => rfl
    | cons b t => simp at hl
  | cons a s ih =>
      cases tap with
      | nil => simp at hl
      | cons b t =>
          simp only [List.length_cons, Nat.succ.injEq] at hl
          have h0 := h 0 (by simp)
          simp only [List.getD] at h0
          have ht : s = t := by
            apply ih t hl
            intro i hi
            have := h (i + 1) (by simpa using Nat.succ_lt_succ hi)
            simpa [List.getD] using this
          simp [h0, ht]
          exact h0

/-- Helper: the tap-type diff fires exactly on unequal lists. -/
theorem tapTypesDiffer_iff (cur tap : List TapTypeV) :
    tapTypesDiffer cur tap = true ↔ cur ≠ tap := by
  constructor
  · intro hdiff heq
    subst heq
    simp [tapTypesDiffer] at hdiff
  · intro hne
    by_contra hfalse
    apply hne
    simp only [Bool.not_eq_true] at hfalse
    unfold tapTypesDiffer at hfalse
    by_cases hl : cur.length = tap.length
    · rw [if_neg (by simpa using hl)] at hfalse
      apply list_eq_of_getD cur tap hl
      intro i hi
      by_contra hne2
      have : (List.range tap.length).any
          (fun i => cur.getD i 0 ≠ tap.getD i 0) = true := by
        rw [List.any_eq_true]
        exact ⟨i, List.mem_range.mpr hi, by simpa using hne2⟩
      rw [this] at hfalse
      simp at hfalse
    · rw [if_pos (by simpa using hl)] at hfalse
      simp at hfalse

/-- C4: parse_tap_type compares the cached cur_tap_types against tap_types
by length and then elementwise; exactly when they differ it notifies the
TapTyper once with the new list and replaces the cache with it; when they
are equal it makes no notification and leaves the cache untouched. -/
theorem C4_parse_tap_type (cur tap : List TapTypeV) :
    (tapTypesDiffer cur tap = true ↔ cur ≠ tap) ∧
    parse_tap_type cur tap =
      (if cur = tap then { cur_tap_types := cur, notifications := [] }
       else { cur_tap_types := tap, notifications := [tap] }) := by
  refine ⟨tapTypesDiffer_iff cur tap, ?_⟩
  by_cases h : cur = tap
  · rw [if_pos h]
    have hdiff : tapTypesDiffer cur tap = false := by
      by_contra hx
      simp only [Bool.not_eq_false] at hx
      exact (tapTypesDiffer_iff cur tap).mp hx h
    simp [parse_tap_type, hdiff]
  · rw [if_neg h]
    have hdiff : tapTypesDiffer cur tap = true := (tapTypesDiffer_iff cur tap).mpr h
    simp [parse_tap_type, hdiff]

/-- C10: the Trident value returned by Trident::start has its join handle;
the first stop() publishes Terminated, notifies the condvar and joins the
supervisor thread, leaving the handle taken; a second stop() reaches
`self.handle.take().unwrap()` with the handle gone and panics (the `none`
outcome), so Trident::stop is not idempotent. -/
theorem C10_trident_stop :
    Trident.startResult.handle_present = true ∧
    Trident.stopM Trident.startResult =
      ([StopEffect.setStateTerminated, StopEffect.notifyCondvar, StopEffect.joinSupervisor],
       some { terminated := true, handle_present := false }) ∧
    Trident.stopM { terminated := true, handle_present := false } =
      ([StopEffect.setStateTerminated, StopEffect.notifyCondvar], none) := by
  decide

/-- C6 counterexample: the claim that every trunk sender queue is
registered under index = its sender id fails on the trace of
Components::new: the proto-log queue (sender id 2) is registered with the
literal index tag "0". -/
theorem C6_counterexample :
    (allQNames.all (fun q => decide (registeredIndex q = some (senderIdOf q))) = false) ∧
    registeredIndex QName.proto_log = some 0 ∧
    senderIdOf QName.proto_log = 2 := by
  decide

/-- C6 amended: every trunk sender queue's countable registration precedes
the construction of that queue's sender thread, and carries module = the
queue's name with index = the queue's sender id — except the proto-log
queue, whose index tag is the hard-coded "0" although its sender id is 2. -/
theorem C6_registration :
    (allQNames.all (fun q => regBeforeConstruct q) = true) ∧
    (allQNamesButProtoLog.all
      (fun q => decide (registeredIndex q = some (senderIdOf q))) = true) ∧
    registeredIndex QName.proto_log = some 0 := by
  decide

/-- C2: evaluation of the DomainNameListener loop at the failing input.
Two domains with current ips [1, 2]; domain 0 resolves to [10] (changed:
the resolved set does not contain 1), domain 1 resolves to [2]
(unchanged).  Position 0 is deemed changed and ips[0] is overwritten, yet
the final `changed` flag — reassigned by the later successful resolution —
is false, so no reset_session / stats / remote-log call is made; and
because ips[0] was already overwritten, the next wakeup (now from
[10, 2]) detects no change either: the rebind is permanently missed. -/
theorem C2_loop_eval :
    deemedChanged c2resolve [1, 2] 0 = true ∧
    (domainIteration 2 c2resolve [1, 2] c2ctrl).1 = [10, 2] ∧
    (domainIteration 2 c2resolve [1, 2] c2ctrl).2 = [] ∧
    (domainIteration 2 c2resolve [10, 2] c2ctrl).2 = [] := by
  decide

/-- C8: Components::start and Components::stop are idempotent through the
running flag: the second consecutive start sees running already true and
makes no component call, the second consecutive stop sees running already
false and makes no component call, and the state after two calls equals
the state after one. -/
theorem C8_idempotent (c : Components) :
    Components.start (Components.start c).1 = ((Components.start c).1, []) ∧
    Components.stop (Components.stop c).1 = ((Components.stop c).1, []) ∧
    (Components.start c).1.running = true ∧
    (Components.stop c).1.running = false := by
  cases hc : c.running <;>
    simp [Components.start, Components.stop, hc]

/-- C5: the second tolerable delay is packet_delay + 1 + flush_interval +
COMMON_DELAY (5 s) + second_flow_extra_delay, the minute tolerable delay
is 60 + packet_delay + 1 + flush_interval + COMMON_DELAY, and each
instantiated second/minute Collector receives a window of its tolerable
delay plus one more COMMON_DELAY (the `as u32` cast is the identity below
2^32, which the hypotheses state). -/
theorem C5_delays (y : DelayCfg) (s m : Bool)
    (hs : second_quadruple_tolerable_delay y + COMMON_DELAY < U32_MOD)
    (hm : minute_quadruple_tolerable_delay y + COMMON_DELAY < U32_MOD) :
    second_quadruple_tolerable_delay y =
      y.packet_delay + 1 + y.flow_flush_interval + COMMON_DELAY +
        y.second_flow_extra_delay ∧
    minute_quadruple_tolerable_delay y =
      60 + y.packet_delay + 1 + y.flow_flush_interval + COMMON_DELAY ∧
    COMMON_DELAY = 5 ∧
    (new_collector s m y).second_window =
      (if s then some (second_quadruple_tolerable_delay y + COMMON_DELAY) else none) ∧
    (new_collector s m y).minute_window =
      (if m then some (minute_quadruple_tolerable_delay y + COMMON_DELAY) else none) := by
  have hw : ∀ d, d + COMMON_DELAY < U32_MOD → collectorWindow d = d + COMMON_DELAY := by
    intro d hd
    have h5 : COMMON_DELAY = 5 := rfl
    have hdm : d < U32_MOD := by omega
    unfold collectorWindow
    rw [Nat.mod_eq_of_lt hdm, Nat.mod_eq_of_lt hd]
  refine ⟨?_, ?_, rfl, ?_, ?_⟩
  · unfold second_quadruple_tolerable_delay
    omega
  · unfold minute_quadruple_tolerable_delay
    omega
  · cases s <;> simp [new_collector, hw _ hs]
  · cases m <;> simp [new_collector, hw _ hm]

/-- C5 witness at a concrete config. -/
theorem C5_delays_witness :
    (second_quadruple_tolerable_delay ⟨2, 3, 4⟩ + COMMON_DELAY < U32_MOD ∧
     minute_quadruple_tolerable_delay ⟨2, 3, 4⟩ + COMMON_DELAY < U32_MOD) ∧
    (second_quadruple_tolerable_delay ⟨2, 3, 4⟩ = 2 + 1 + 3 + COMMON_DELAY + 4 ∧
     minute_quadruple_tolerable_delay ⟨2, 3, 4⟩ = 60 + 2 + 1 + 3 + COMMON_DELAY ∧
     COMMON_DELAY = 5 ∧
     (new_collector true true ⟨2, 3, 4⟩).second_window =
       (if true then some (second_quadruple_tolerable_delay ⟨2, 3, 4⟩ + COMMON_DELAY)
        else none) ∧
     (new_collector true true ⟨2, 3, 4⟩).minute_window =
       (if true then some (minute_quadruple_tolerable_delay ⟨2, 3, 4⟩ + COMMON_DELAY)
        else none)) :=
  ⟨⟨by decide, by decide⟩, C5_delays ⟨2, 3, 4⟩ true true (by decide) (by decide)⟩

/-- C1: a ConfigChanged whose yaml snapshot differs from the stored one
makes the supervisor stop the current pipeline, log the restart warning,
sleep one second and exit with NORMAL_EXIT_WITH_RESTART; the only modelled
wall-clock delay on this path is that one-second sleep, so the exit comes
within two seconds of consuming the event. -/
theorem C1_yaml_restart (st : SupState) (cc : ChangedConfigM) (y : YamlConfig)
    (c : CompsView) (h1 : st.yaml_conf = some y)
    (h2 : y ≠ cc.runtime_config.yaml_config) (h3 : st.components = some c) :
    (processConfigChanged st cc).2 =
      [SupEffect.stopComponents, SupEffect.warnRestart, SupEffect.sleepSecs 1,
       SupEffect.exitProcess NORMAL_EXIT_WITH_RESTART] ∧
    sleepTotal (processConfigChanged st cc).2 ≤ 2 := by
  obtain ⟨yc, comps, k8s⟩ := st
  simp only at h1 h3
  subst h1
  subst h3
  simp [processConfigChanged, h2, sleepTotal]

/-- C1 witness: the restart path evaluated at a concrete state and event. -/
theorem C1_yaml_restart_witness :
    (c1state.yaml_conf = some 1 ∧ (1 : YamlConfig) ≠ c1cc.runtime_config.yaml_config ∧
      c1state.components = some
        { running := true, config := { tap_mode := TapMode.Local, token := 0 },
          cur_tap_types := [] }) ∧
    ((processConfigChanged c1state c1cc).2 =
      [SupEffect.stopComponents, SupEffect.warnRestart, SupEffect.sleepSecs 1,
       SupEffect.exitProcess NORMAL_EXIT_WITH_RESTART] ∧
     sleepTotal (processConfigChanged c1state c1cc).2 ≤ 2) :=
  ⟨⟨rfl, by decide, rfl⟩,
   C1_yaml_restart c1state c1cc 1 _ rfl (by decide) rfl⟩

/-- C7: a ConfigChanged whose yaml snapshot equals the stored one performs
no process exit and no rebuild: the same pipeline value is updated in place
(running set, candidate module config replaced, tap-type cache refreshed on
the Analyzer path), and the step is start, dispatcher-listener fan-out,
per-module callbacks, then the new dispatcher config pushed to every
listener. -/
theorem C7_hot_reload (st : SupState) (cc : ChangedConfigM) (c : CompsView)
    (h1 : st.yaml_conf = some cc.runtime_config.yaml_config)
    (h3 : st.components = some c) :
    (processConfigChanged st cc).1.components =
      some (applyHotTapTypes { c with running := true, config := cc.runtime_config.module }
        cc.runtime_config.module.tap_mode cc.tap_types) ∧
    (processConfigChanged st cc).2 =
      [SupEffect.startComponents, SupEffect.fanoutDispatcherListeners,
       SupEffect.runCallbacks, SupEffect.pushDispatcherConfigToListeners] ∧
    (∀ code, SupEffect.exitProcess code ∉ (processConfigChanged st cc).2) ∧
    SupEffect.buildComponents ∉ (processConfigChanged st cc).2 ∧
    SupEffect.stopComponents ∉ (processConfigChanged st cc).2 := by
  obtain ⟨yc, comps, k8s⟩ := st
  simp only at h1 h3
  subst h1
  subst h3
  simp [processConfigChanged, processCommon]

/-- C7 witness: the hot path evaluated at a concrete state and event. -/
theorem C7_hot_reload_witness :
    (c7state.yaml_conf = some c7cc.runtime_config.yaml_config ∧
      c7state.components = some c7comp) ∧
    ((processConfigChanged c7state c7cc).2 =
      [SupEffect.startComponents, SupEffect.fanoutDispatcherListeners,
       SupEffect.runCallbacks, SupEffect.pushDispatcherConfigToListeners]) :=
  ⟨⟨rfl, rfl⟩, (C7_hot_reload c7state c7cc c7comp rfl rfl).2.1⟩

/-- Helper: the vm-MAC push appears in a listener's Local-mode block exactly
for that listener's own index and only when it owns the root namespace. -/
theorem vmChange_mem_block (conf : DispatcherConfM) (rl : List Link)
    (nsRes : NsFile → Option (List Link)) (bl : List Nat) (vm : List MacAddr)
    (i j : Nat) (m : List MacAddr) (l : ListenerM) :
    CallbackEffect.vmChange i m ∈ localListenerBlock conf rl nsRes bl vm j l ↔
      (i = j ∧ m = vm ∧ l.netns = NsFile.Root) := by
  unfold localListenerBlock
  by_cases hroot : l.netns = NsFile.Root
  · rw [if_neg (not_not_intro hroot)]
    simp [hroot]
  · rw [if_pos hroot]
    constructor
    · intro hmem
      exfalso
      rcases List.mem_append.mp hmem with hw | ht
      · cases hres : nsRes l.netns with
        | none => rw [hres] at hw; simp [resolveWarnings] at hw
        | some ls =>
            rw [hres] at hw
            by_cases hls : ls = [] <;> simp [resolveWarnings, hls] at hw
      · simp at ht
    · rintro ⟨h1, h2, hr⟩
      exact absurd hr hroot

/-- C3 counterexample: in Local mode with a single listener that owns a
non-root namespace, the callback pushes only that namespace's interface
list; the vm-MAC push the claim requires for every listener never reaches
it (the loop continues before on_vm_change). -/
theorem C3_counterexample :
    (dispatcher_listener_callback c3conf [] (some [7]) c3nsRes
        [{ netns := NsFile.Named "ns1" }] [] [9] []).1 =
      [CallbackEffect.tapInterfaceChange 0 [5] IfMacSource.IfMac 0 []] ∧
    CallbackEffect.vmChange 0 [9] ∉
      (dispatcher_listener_callback c3conf [] (some [7]) c3nsRes
        [{ netns := NsFile.Named "ns1" }] [] [9] []).1 := by
  decide

/-- C3 amended: in Local mode every listener gets the interface list pushed
(re-resolved in its own namespace when non-root, the root-namespace list
otherwise) with if_mac_source, trident_type and the blacklist, but the
vm-MAC push reaches a listener exactly when it owns the root namespace;
namespace resolution failures only log a warning (the push still happens,
with an empty list). -/
theorem C3_local_callback (conf : DispatcherConfM) (cur : List TapTypeV)
    (rootRes : Option (List Link)) (nsRes : NsFile → Option (List Link))
    (listeners : List ListenerM) (blacklist : List Nat) (vm_mac_addrs : List MacAddr)
    (tap_types : List TapTypeV) (i : Nat)
    (hmode : conf.tap_mode = TapMode.Local) (hi : i < listeners.length) :
    CallbackEffect.tapInterfaceChange i
        (if (listeners.getD i { netns := NsFile.Root }).netns = NsFile.Root
         then resolvedLinks rootRes
         else resolvedLinks (nsRes (listeners.getD i { netns := NsFile.Root }).netns))
        conf.if_mac_source conf.trident_type blacklist ∈
      (dispatcher_listener_callback conf cur rootRes nsRes listeners blacklist
        vm_mac_addrs tap_types).1 ∧
    (CallbackEffect.vmChange i vm_mac_addrs ∈
        (dispatcher_listener_callback conf cur rootRes nsRes listeners blacklist
          vm_mac_addrs tap_types).1 ↔
      (listeners.getD i { netns := NsFile.Root }).netns = NsFile.Root) ∧
    ((listeners.getD i { netns := NsFile.Root }).netns ≠ NsFile.Root →
      nsRes (listeners.getD i { netns := NsFile.Root }).netns = none →
      CallbackEffect.warnRegexFailed false ∈
        (dispatcher_listener_callback conf cur rootRes nsRes listeners blacklist
          vm_mac_addrs tap_types).1) := by
  have hcb : (dispatcher_listener_callback conf cur rootRes nsRes listeners blacklist
      vm_mac_addrs tap_types).1 =
      resolveWarnings true rootRes ++
        (List.range listeners.length).flatMap (fun j =>
          localListenerBlock conf (resolvedLinks rootRes) nsRes blacklist vm_mac_addrs
            j (listeners.getD j { netns := NsFile.Root })) := by
    unfold dispatcher_listener_callback
    rw [hmode]
  rw [hcb]
  refine ⟨?_, ?_, ?_⟩
  · rw [List.mem_append]
    right
    rw [List.mem_flatMap]
    refine ⟨i, List.mem_range.mpr hi, ?_⟩
    by_cases hroot : (listeners.getD i { netns := NsFile.Root }).netns = NsFile.Root
    · rw [if_pos hroot]
      unfold localListenerBlock
      rw [if_neg (not_not_intro hroot)]
      exact List.mem_cons_self _ _
    · rw [if_neg hroot]
      unfold localListenerBlock
      rw [if_pos hroot]
      exact List.mem_append_right _ (List.mem_cons_self _ _)
  · constructor
    · intro hmem
      rcases List.mem_append.mp hmem with hw | hb
      · unfold resolveWarnings at hw
        cases rootRes with
        | none => simp at hw
        | some ls => cases ls <;> simp at hw
      · rcases List.mem_flatMap.mp hb with ⟨j, _, hblock⟩
        rcases (vmChange_mem_block conf (resolvedLinks rootRes) nsRes blacklist
            vm_mac_addrs i j vm_mac_addrs
            (listeners.getD j { netns := NsFile.Root })).mp hblock with ⟨hij, _, hroot⟩
        subst hij
        exact hroot
    · intro hroot
      rw [List.mem_append]
      right
      rw [List.mem_flatMap]
      refine ⟨i, List.mem_range.mpr hi, ?_⟩
      exact (vmChange_mem_block conf (resolvedLinks rootRes) nsRes blacklist
        vm_mac_addrs i i vm_mac_addrs
        (listeners.getD i { netns := NsFile.Root })).mpr ⟨rfl, rfl, hroot⟩
  · intro hroot hnone
    rw [List.mem_append]
    right
    rw [List.mem_flatMap]
    refine ⟨i, List.mem_range.mpr hi, ?_⟩
    unfold localListenerBlock
    rw [if_pos hroot, hnone]
    exact List.mem_append_left _ (List.mem_cons_self _ _)

/-- C3 witness: the vm-push characterization applied at a concrete input
with one root and one non-root listener. -/
theorem C3_local_callback_witness :
    (c3wconf.tap_mode = TapMode.Local ∧ 1 < c3wlisteners.length) ∧
    (CallbackEffect.vmChange 1 [8] ∈
        (dispatcher_listener_callback c3wconf [] (some [7]) c3wnsRes c3wlisteners
          [] [8] []).1 ↔
      (c3wlisteners.getD 1 { netns := NsFile.Root }).netns = NsFile.Root) :=
  ⟨⟨rfl, by decide⟩,
   (C3_local_callback c3wconf [] (some [7]) c3wnsRes c3wlisteners [] [8] [] 1
     rfl (by decide)).2.1⟩

set_option maxHeartbeats 1000000 in
/-- C9: the free-memory gate applies exactly when tap_mode is not Analyzer
and the configured kubernetes_cluster_id is empty; otherwise every
dispatcher is started unconditionally.  When the gated check fails, no
dispatcher is started and only a warning is logged, while start carries on
with the remaining components (log parsers, the domain-name listener, and
the rest) — the start function is total, it never unwinds. -/
theorem C9_free_memory_gate (env : StartEnv) (i : Nat) :
    (CompEffect.freeMemoryChecked ∈ startEffects env ↔
      (env.tap_mode ≠ TapMode.Analyzer ∧ env.kubernetes_cluster_id_empty = true)) ∧
    (CompEffect.startedIdx CompName.dispatcher i ∈ startEffects env ↔
      (i < env.dispatcher_count ∧
        (env.tap_mode = TapMode.Analyzer ∨ env.kubernetes_cluster_id_empty = false ∨
          env.free_memory_ok = true))) ∧
    (CompEffect.warnedFreeMemory ∈ startEffects env ↔
      (env.tap_mode ≠ TapMode.Analyzer ∧ env.kubernetes_cluster_id_empty = true ∧
        env.free_memory_ok = false)) ∧
    (CompEffect.startedIdx CompName.log_parsers i ∈ startEffects env ↔
      i < env.log_parsers_count) ∧
    CompEffect.started CompName.domain_name_listener ∈ startEffects env := by
  by_cases hA : env.tap_mode = TapMode.Analyzer <;>
    cases hK : env.kubernetes_cluster_id_empty <;>
      cases hF : env.free_memory_ok <;>
        simp [startEffects, mem_ite_list, hA, hK, hF]
